import Mathlib

/-!
Verification development for the chatbot session-lifecycle core of the
AgentTerm repository (`app/routers/chatbot_router.py`, `app/main.py`,
`app/agents/BasicChatbotAgent.py`).

The Python module keeps a process-wide dictionary
`chatbot_instances : Dict[str, Tuple[BasicChatbotAgent, float]]` mapping a
client identifier to a pair of an agent object and a last-activity
timestamp.  We embed the dictionary as an association list with unique
keys (a Python `dict`), the agent object as an allocation-numbered handle
carrying its mutable `messages` field, and timestamps as integers
(`time.time()` values, compared and subtracted exactly as in the source).
The LLM call performed by `BasicChatbotAgent.run_agent` is an external
collaborator; its outcome (a reply text together with the new
`all_messages()` history, or a raised exception) is passed to the `chat`
handler as an explicit parameter.
-/

namespace AgentTerm

/-- One message of an agent's conversation history.  The router treats
messages as opaque values (`chatbot.messages` is read, counted, replaced
wholesale, never inspected), so an opaque carrier type suffices. -/
abbrev Msg := String

/-- The value stored in `chatbot_instances` for one client: the
`(BasicChatbotAgent, last_activity)` tuple.  The agent object is
represented by its allocation number `agent` (object identity: equal
numbers means the very same Python object) together with its mutable
`messages` field, which the router reads (`len(chatbot.messages)`,
`chatbot.messages`) and writes (`chatbot.save_messages([])`,
and `run_agent` saving `response.all_messages()`). -/
structure Entry where
  agent : Nat
  messages : List Msg
  last_activity : Int
  deriving DecidableEq

/-- The `chatbot_instances` dictionary: association list from client id
to entry.  States produced by the handlers keep keys unique, as a Python
`dict` does. -/
abbrev Table := List (String × Entry)

/-- Python `key in d`. -/
def dictContains (t : Table) (k : String) : Bool :=
  t.any (fun p => p.1 == k)

/-- Python `d[key]` lookup (as an `Option`, since the handlers always
guard lookups with a containment test). -/
def dictGet (t : Table) (k : String) : Option Entry :=
  (t.find? (fun p => p.1 == k)).map Prod.snd

/-- Python `d[key] = v`: overwrite the binding when the key is present,
append a fresh binding otherwise. -/
def dictSet (t : Table) (k : String) (v : Entry) : Table :=
  if dictContains t k then
    t.map (fun p => if p.1 == k then (k, v) else p)
  else
    t ++ [(k, v)]

/-- Python `del d[key]`. -/
def dictDel (t : Table) (k : String) : Table :=
  t.filter (fun p => !(p.1 == k))

/-- `INACTIVITY_THRESHOLD = 3600` (seconds, one hour). -/
def INACTIVITY_THRESHOLD : Int := 3600

/-- The whole mutable module state: the `chatbot_instances` dictionary
plus the allocation counter that numbers `BasicChatbotAgent()`
constructions (modelling Python object identity of agent handles). -/
structure ServerState where
  table : Table
  nextAgent : Nat
  deriving DecidableEq

/-- `ChatRequest(BaseModel)`: `user_input : str`, `client_id : str = None`. -/
structure ChatRequest where
  user_input : String
  client_id : Option String
  deriving DecidableEq

/-- Python truthiness test `not request.client_id`: `None` and the empty
string are falsy. -/
def pyFalsy : Option String → Bool
  | none => true
  | some c => c == ""

/-- HTTP-level failures raised by the handlers: `HTTPException(404, ...)`
for an unknown client, and a 5xx server error when the awaited agent call
raises. -/
inductive HTTPError where
  | notFound (detail : String)
  | serverError (detail : String)
  deriving DecidableEq

/-- Does an endpoint result carry the 404 "Client ID not found" class of
failure? -/
def isClientNotFound {α : Type} : Except HTTPError α → Bool
  | .error (.notFound _) => true
  | _ => false

/-- Body of a successful `/chat` response: `{"response": ..., "client_id": ...}`. -/
structure ChatReply where
  response : String
  client_id : String
  deriving DecidableEq

/-- Outcome of the external model call inside
`BasicChatbotAgent.run_agent`: either the reply text together with the
`response.all_messages()` list that `save_messages` stores, or a raised
exception (re-raised by `run_agent`, propagating out of the handler). -/
inductive AgentOutcome where
  | ok (text : String) (allMessages : List Msg)
  | fail (detail : String)
  deriving DecidableEq

/-- `update_activity(client_id)`: if present, re-store the same agent
object with a fresh `time.time()` timestamp; silently a no-op when the
key is absent. -/
def update_activity (now : Int) (cid : String) (s : ServerState) : ServerState :=
  if dictContains s.table cid then
    match dictGet s.table cid with
    | some e => { s with table := dictSet s.table cid { e with last_activity := now } }
    | none => s
  else s

/-- The client id a `/chat` request effectively runs under: the supplied
`client_id` when truthy, otherwise a freshly generated `str(uuid.uuid4())`
(passed in as `freshId`). -/
def effectiveCid (freshId : String) (req : ChatRequest) : String :=
  if pyFalsy req.client_id then freshId else req.client_id.getD freshId

/-- The resolve-or-create prefix of the `chat` handler (spec §4.1
`get_or_create`): generate an id if none supplied, and if the id is not
in the table, bind it to a newly constructed `BasicChatbotAgent()` (empty
`messages`) stamped `time.time()`. -/
def getOrCreate (now : Int) (freshId : String) (req : ChatRequest) (s : ServerState) :
    String × ServerState :=
  let cid := effectiveCid freshId req
  if dictContains s.table cid then (cid, s)
  else
    (cid,
      { table := dictSet s.table cid { agent := s.nextAgent, messages := [], last_activity := now }
        nextAgent := s.nextAgent + 1 })

/-- `POST /chat`.  Mirrors the handler line by line: resolve/create the
entry, read the agent handle, `update_activity` (before the awaited agent
call), then `await chatbot.run_agent(user_input)`; on success `run_agent`
stores `response.all_messages()` into the agent's `messages` and the
handler returns the reply with the client id; if the call raises, the
exception propagates with the state as already touched.  (The `none`
branch is unreachable: the id was just created or found.) -/
def chat (now : Int) (freshId : String) (outcome : AgentOutcome) (req : ChatRequest)
    (s : ServerState) : Except HTTPError ChatReply × ServerState :=
  let r := getOrCreate now freshId req s
  match dictGet r.2.table r.1 with
  | none => (.error (.serverError "unreachable: entry just resolved"), r.2)
  | some e =>
    let s2 := update_activity now r.1 r.2
    match outcome with
    | .fail d => (.error (.serverError d), s2)
    | .ok text ms =>
        (.ok { response := text, client_id := r.1 },
         { s2 with table := dictSet s2.table r.1 { e with messages := ms, last_activity := now } })

/-- `POST /reset`: 404 when unknown; otherwise `chatbot.save_messages([])`
then `update_activity`, returning the fixed confirmation message. -/
def reset_chat (now : Int) (cid : String) (s : ServerState) :
    Except HTTPError String × ServerState :=
  if dictContains s.table cid then
    match dictGet s.table cid with
    | some e =>
        let s1 : ServerState := { s with table := dictSet s.table cid { e with messages := [] } }
        (.ok "Chatbot context has been reset for the specified client.",
         update_activity now cid s1)
    | none => (.error (.notFound "Client ID not found"), s)
  else (.error (.notFound "Client ID not found"), s)

/-- `DELETE /remove-instance`: delete the entry when present, else 404. -/
def remove_instance (cid : String) (s : ServerState) :
    Except HTTPError String × ServerState :=
  if dictContains s.table cid then
    (.ok "Chatbot instance removed successfully", { s with table := dictDel s.table cid })
  else (.error (.notFound "Client ID not found"), s)

/-- One row of the `GET /instances` report. -/
structure InstanceInfo where
  last_activity : Int
  idle_time_seconds : Int
  message_count : Nat
  will_expire_in : Int
  deriving DecidableEq

/-- The `GET /instances` response body. -/
structure InstancesOverview where
  active_instances : Nat
  instances : List (String × InstanceInfo)
  deriving DecidableEq

/-- `GET /instances`: build the overview from the live table.  The
handler's body contains no write to `chatbot_instances` and no
`update_activity` call, so the handler is a function of the state; it is
paired with the (unchanged) post-state to mirror the other handlers. -/
def get_chatbot_instances (now : Int) (s : ServerState) :
    InstancesOverview × ServerState :=
  ({ active_instances := s.table.length
     instances := s.table.map (fun p =>
       (p.1,
        { last_activity := p.2.last_activity
          idle_time_seconds := now - p.2.last_activity
          message_count := p.2.messages.length
          will_expire_in := max 0 (INACTIVITY_THRESHOLD - (now - p.2.last_activity)) })) },
   s)

/-- `GET /history/{client_id}`: 404 when unknown; otherwise
`update_activity` and return `chatbot.messages` (read before the touch in
the source, but the touch does not change `messages`). -/
def get_chat_history (now : Int) (cid : String) (s : ServerState) :
    Except HTTPError (List Msg) × ServerState :=
  if dictContains s.table cid then
    match dictGet s.table cid with
    | some e => (.ok e.messages, update_activity now cid s)
    | none => (.error (.notFound "Client ID not found"), s)
  else (.error (.notFound "Client ID not found"), s)

/-- The eviction phase of one iteration of `cleanup_inactive_instances`:
collect the ids whose idle time strictly exceeds the threshold from a
snapshot of `.items()`, then `del` each collected id. -/
def sweepOnce (now : Int) (t : Table) : Table :=
  let inactive :=
    (t.filter (fun p => now - p.2.last_activity > INACTIVITY_THRESHOLD)).map Prod.fst
  inactive.foldl (fun acc cid => dictDel acc cid) t

/-- Python exception classes relevant to the reaper loop:
`Exception` subclasses (caught by `except Exception`) versus
`asyncio.CancelledError`, which derives from `BaseException` and escapes
that handler, cancelling the task. -/
inductive PyExc where
  | exception (detail : String)
  | cancelledError
  deriving DecidableEq

/-- What one trip around the `while True` loop of
`cleanup_inactive_instances` does with the control flow. -/
inductive ReaperStep where
  | next (table : Table) (sleepSeconds : Nat)
  | cancelled
  deriving DecidableEq

/-- One iteration of the reaper loop.  `fault` injects a possible
exception raised during the iteration's body (an `Exception` is caught by
the `except Exception` arm, which logs and sleeps the same 300 seconds
before the loop continues; a `CancelledError` is not an `Exception` and
terminates the task).  A fault-free iteration evicts the idle entries and
sleeps 300 seconds. -/
def reaperIteration (now : Int) (t : Table) (fault : Option PyExc) : ReaperStep :=
  match fault with
  | none => .next (sweepOnce now t) 300
  | some (.exception _) => .next t 300
  | some .cancelledError => .cancelled

/-- The shutdown half of `lifespan` in `app/main.py`: after
`cleanup_task.cancel()`, `await cleanup_task` is wrapped in
`try ... except asyncio.CancelledError: pass`, so the expected
cancellation is swallowed; any other escaping exception would re-raise. -/
def lifespanShutdown (awaited : Option PyExc) : Option PyExc :=
  match awaited with
  | some .cancelledError => none
  | r => r


/-! ### Dictionary lemmas -/

theorem find?_key_cons_pos (q : String × Entry) (t : Table) (k : String)
    (h : (q.1 == k) = true) :
    List.find? (fun p => p.1 == k) (q :: t) = some q :=
  @List.find?_cons_of_pos _ (fun p => p.1 == k) q t h

theorem find?_key_cons_neg (q : String × Entry) (t : Table) (k : String)
    (h : (q.1 == k) = false) :
    List.find? (fun p => p.1 == k) (q :: t) = List.find? (fun p => p.1 == k) t :=
  @List.find?_cons_of_neg _ (fun p => p.1 == k) q t (by simp [h])

theorem dictGet_nil (k : String) : dictGet [] k = none := rfl

theorem dictGet_cons_pos (q : String × Entry) (t : Table) (k : String)
    (h : (q.1 == k) = true) : dictGet (q :: t) k = some q.2 := by
  simp [dictGet, find?_key_cons_pos q t k h]

theorem dictGet_cons_neg (q : String × Entry) (t : Table) (k : String)
    (h : (q.1 == k) = false) : dictGet (q :: t) k = dictGet t k := by
  simp [dictGet, find?_key_cons_neg q t k h]

theorem dictContains_cons (q : String × Entry) (t : Table) (k : String) :
    dictContains (q :: t) k = ((q.1 == k) || dictContains t k) := by
  simp [dictContains]

theorem dictContains_eq_isSome (t : Table) (k : String) :
    dictContains t k = (dictGet t k).isSome := by
  induction t with
  | nil => rfl
  | cons q t ih =>
    cases hqk : (q.1 == k) with
    | true => simp [dictContains_cons, hqk, dictGet_cons_pos q t k hqk]
    | false => simp [dictContains_cons, hqk, dictGet_cons_neg q t k hqk, ih]

theorem dictGet_eq_none_of_not_contains (t : Table) (k : String)
    (hc : dictContains t k = false) : dictGet t k = none := by
  have h := dictContains_eq_isSome t k
  rw [hc] at h
  cases hg : dictGet t k with
  | none => rfl
  | some e => rw [hg] at h; simp at h

theorem dictGet_set_self (t : Table) (k : String) (v : Entry) :
    dictGet (dictSet t k v) k = some v := by
  unfold dictSet
  cases hc : dictContains t k with
  | true =>
      simp only [if_true]
      induction t with
      | nil => simp [dictContains] at hc
      | cons q t ih =>
        cases hqk : (q.1 == k) with
        | true =>
            simp only [List.map_cons, hqk, if_true]
            exact dictGet_cons_pos (k, v) _ k (beq_self_eq_true k)
        | false =>
            simp only [List.map_cons, hqk, Bool.false_eq_true, if_false]
            rw [dictGet_cons_neg q _ k hqk]
            exact ih (by simpa [dictContains_cons, hqk] using hc)
  | false =>
      simp only [Bool.false_eq_true, if_false]
      have hfind : t.find? (fun p => p.1 == k) = none := by
        have := dictGet_eq_none_of_not_contains t k hc
        unfold dictGet at this
        cases h : t.find? (fun p => p.1 == k) with
        | none => rfl
        | some p => rw [h] at this; simp at this
      simp [dictGet, List.find?_append, hfind,
        find?_key_cons_pos (k, v) [] k (beq_self_eq_true k)]

theorem dictGet_map_touch_ne (t : Table) (k k' : String) (v : Entry) (hne : k' ≠ k) :
    dictGet (t.map (fun p => if p.1 == k then (k, v) else p)) k' = dictGet t k' := by
  have hkk : (k == k') = false := by
    simp only [beq_eq_false_iff_ne, ne_eq]
    exact fun h => hne h.symm
  induction t with
  | nil => rfl
  | cons q t ih =>
    cases hqk : (q.1 == k) with
    | true =>
        have hq1 : q.1 = k := by simpa using hqk
        have hqk' : (q.1 == k') = false := by rw [hq1]; exact hkk
        simp only [List.map_cons, hqk, if_true]
        rw [dictGet_cons_neg (k, v) _ k' hkk, dictGet_cons_neg q t k' hqk']
        exact ih
    | false =>
        simp only [List.map_cons, hqk, Bool.false_eq_true, if_false]
        cases hqk' : (q.1 == k') with
        | true =>
            rw [dictGet_cons_pos q _ k' hqk', dictGet_cons_pos q t k' hqk']
        | false =>
            rw [dictGet_cons_neg q _ k' hqk', dictGet_cons_neg q t k' hqk']
            exact ih

theorem dictGet_set_ne (t : Table) (k k' : String) (v : Entry) (hne : k' ≠ k) :
    dictGet (dictSet t k v) k' = dictGet t k' := by
  have hkk : (k == k') = false := by
    simp only [beq_eq_false_iff_ne, ne_eq]
    exact fun h => hne h.symm
  unfold dictSet
  cases hc : dictContains t k with
  | true =>
      simp only [if_true]
      exact dictGet_map_touch_ne t k k' v hne
  | false =>
      simp only [Bool.false_eq_true, if_false]
      simp [dictGet, List.find?_append, hkk]

theorem length_dictSet_contains (t : Table) (k : String) (v : Entry)
    (hc : dictContains t k = true) : (dictSet t k v).length = t.length := by
  simp [dictSet, hc]

theorem length_dictSet_fresh (t : Table) (k : String) (v : Entry)
    (hc : dictContains t k = false) : (dictSet t k v).length = t.length + 1 := by
  simp [dictSet, hc]

theorem dictGet_del_self (t : Table) (k : String) : dictGet (dictDel t k) k = none := by
  have hfind : List.find? (fun p => p.1 == k) (dictDel t k) = none := by
    rw [List.find?_eq_none]
    intro p hp
    rcases List.mem_filter.mp hp with ⟨-, hkeep⟩
    simp only [Bool.not_eq_eq_eq_not, Bool.not_true] at hkeep
    simp [hkeep]
  simp [dictGet, hfind]

theorem dictGet_del_ne (t : Table) (j k : String) (hne : j ≠ k) :
    dictGet (dictDel t j) k = dictGet t k := by
  unfold dictDel
  induction t with
  | nil => rfl
  | cons q t ih =>
    cases hqj : (q.1 == j) with
    | true =>
        have hq1 : q.1 = j := by simpa using hqj
        have hqk : (q.1 == k) = false := by simp [hq1, beq_eq_false_iff_ne, hne]
        rw [List.filter_cons]
        simp only [hqj, Bool.not_true, Bool.false_eq_true, if_false]
        rw [dictGet_cons_neg q t k hqk]
        exact ih
    | false =>
        rw [List.filter_cons]
        simp only [hqj, Bool.not_false, if_true]
        cases hqk : (q.1 == k) with
        | true => rw [dictGet_cons_pos q _ k hqk, dictGet_cons_pos q t k hqk]
        | false =>
            rw [dictGet_cons_neg q _ k hqk, dictGet_cons_neg q t k hqk]
            exact ih

theorem dictGet_del_none (t : Table) (j k : String) (h : dictGet t k = none) :
    dictGet (dictDel t j) k = none := by
  by_cases hjk : j = k
  · subst hjk; exact dictGet_del_self t j
  · rw [dictGet_del_ne t j k hjk]; exact h

theorem dictGet_foldl_del_none (ids : List String) (t : Table) (k : String)
    (h : dictGet t k = none) :
    dictGet (ids.foldl (fun acc cid => dictDel acc cid) t) k = none := by
  induction ids generalizing t with
  | nil => exact h
  | cons c ids ih => exact ih (dictDel t c) (dictGet_del_none t c k h)

theorem dictGet_foldl_del_mem (ids : List String) (t : Table) (k : String)
    (h : k ∈ ids) :
    dictGet (ids.foldl (fun acc cid => dictDel acc cid) t) k = none := by
  induction ids generalizing t with
  | nil => cases h
  | cons c ids ih =>
    rw [List.foldl_cons]
    by_cases hkc : k = c
    · subst hkc
      exact dictGet_foldl_del_none ids (dictDel t k) k (dictGet_del_self t k)
    · exact ih (dictDel t c) ((List.mem_cons.mp h).resolve_left hkc)

theorem dictGet_foldl_del_not_mem (ids : List String) (t : Table) (k : String)
    (h : k ∉ ids) :
    dictGet (ids.foldl (fun acc cid => dictDel acc cid) t) k = dictGet t k := by
  induction ids generalizing t with
  | nil => rfl
  | cons c ids ih =>
    rw [List.foldl_cons]
    have hkc : c ≠ k := fun hh => h (hh ▸ List.mem_cons_self c ids)
    rw [ih (dictDel t c) (fun hm => h (List.mem_cons_of_mem c hm)),
      dictGet_del_ne t c k hkc]

theorem dictGet_unique (t : Table) (k : String) (e : Entry)
    (hnd : (t.map Prod.fst).Nodup) (hget : dictGet t k = some e) :
    ∀ p ∈ t, p.1 = k → p = (k, e) := by
  induction t with
  | nil => intro p hp; cases hp
  | cons q t ih =>
    rw [List.map_cons, List.nodup_cons] at hnd
    intro p hp hpk
    cases hqk : (q.1 == k) with
    | true =>
        have hq1 : q.1 = k := by simpa using hqk
        have hqe : q.2 = e := by
          rw [dictGet_cons_pos q t k hqk] at hget
          simpa using hget
        rcases List.mem_cons.mp hp with hpq | hpt
        · subst hpq
          calc p = (p.1, p.2) := rfl
            _ = (k, e) := by rw [hpk, hqe]
        · exact absurd (List.mem_map.mpr ⟨p, hpt, hpk.trans hq1.symm⟩) hnd.1
    | false =>
        rcases List.mem_cons.mp hp with hpq | hpt
        · subst hpq
          exact absurd hpk (by simpa using hqk)
        · rw [dictGet_cons_neg q t k hqk] at hget
          exact ih hnd.2 hget p hpt hpk

/-! ### Handler computation lemmas -/

theorem dictGet_some_mem (t : Table) (k : String) (e : Entry) (h : dictGet t k = some e) :
    (k, e) ∈ t := by
  unfold dictGet at h
  cases hf : t.find? (fun p => p.1 == k) with
  | none => rw [hf] at h; simp at h
  | some q =>
      rw [hf] at h
      have hq2 : q.2 = e := by simpa using h
      have hq1 : q.1 = k := by simpa using List.find?_some hf
      have hq : q = (k, e) := by rw [← hq1, ← hq2]
      exact hq ▸ List.mem_of_find?_eq_some hf

theorem update_activity_known (now : Int) (cid : String) (s : ServerState) (e : Entry)
    (h : dictGet s.table cid = some e) :
    update_activity now cid s =
      { s with table := dictSet s.table cid { e with last_activity := now } } := by
  unfold update_activity
  rw [dictContains_eq_isSome, h]
  simp

theorem update_activity_unknown (now : Int) (cid : String) (s : ServerState)
    (h : dictGet s.table cid = none) : update_activity now cid s = s := by
  unfold update_activity
  rw [dictContains_eq_isSome, h]
  simp

theorem getOrCreate_known (now : Int) (freshId : String) (req : ChatRequest)
    (s : ServerState) (e : Entry) (h : dictGet s.table (effectiveCid freshId req) = some e) :
    getOrCreate now freshId req s = (effectiveCid freshId req, s) := by
  unfold getOrCreate
  simp [dictContains_eq_isSome, h]

theorem getOrCreate_unknown (now : Int) (freshId : String) (req : ChatRequest)
    (s : ServerState) (h : dictGet s.table (effectiveCid freshId req) = none) :
    getOrCreate now freshId req s =
      (effectiveCid freshId req,
        { table := (dictSet s.table (effectiveCid freshId req)
            { agent := s.nextAgent, messages := [], last_activity := now })
          nextAgent := s.nextAgent + 1 }) := by
  unfold getOrCreate
  simp [dictContains_eq_isSome, h]

theorem chat_known_fail (now : Int) (freshId d : String) (req : ChatRequest)
    (s : ServerState) (e : Entry) (h : dictGet s.table (effectiveCid freshId req) = some e) :
    chat now freshId (.fail d) req s =
      (.error (.serverError d),
       { s with table := (dictSet s.table (effectiveCid freshId req)
           { e with last_activity := now }) }) := by
  unfold chat
  rw [getOrCreate_known now freshId req s e h]
  simp only [h]
  rw [update_activity_known now _ s e h]

theorem chat_known_ok (now : Int) (freshId text : String) (ms : List Msg) (req : ChatRequest)
    (s : ServerState) (e : Entry) (h : dictGet s.table (effectiveCid freshId req) = some e) :
    chat now freshId (.ok text ms) req s =
      (.ok { response := text, client_id := effectiveCid freshId req },
       { s with table := (dictSet
           (dictSet s.table (effectiveCid freshId req) { e with last_activity := now })
           (effectiveCid freshId req) { e with messages := ms, last_activity := now }) }) := by
  unfold chat
  rw [getOrCreate_known now freshId req s e h]
  simp only [h]
  rw [update_activity_known now _ s e h]

theorem chat_fresh_fail (now : Int) (freshId d : String) (req : ChatRequest)
    (s : ServerState) (h : dictGet s.table (effectiveCid freshId req) = none) :
    chat now freshId (.fail d) req s =
      (.error (.serverError d),
       { table := (dictSet
           (dictSet s.table (effectiveCid freshId req)
             { agent := s.nextAgent, messages := [], last_activity := now })
           (effectiveCid freshId req)
           { agent := s.nextAgent, messages := [], last_activity := now })
         nextAgent := s.nextAgent + 1 }) := by
  unfold chat
  rw [getOrCreate_unknown now freshId req s h]
  have hget := dictGet_set_self s.table (effectiveCid freshId req)
    { agent := s.nextAgent, messages := [], last_activity := now }
  simp only [hget]
  rw [update_activity_known now _ _ _ hget]

theorem chat_fresh_ok (now : Int) (freshId text : String) (ms : List Msg) (req : ChatRequest)
    (s : ServerState) (h : dictGet s.table (effectiveCid freshId req) = none) :
    chat now freshId (.ok text ms) req s =
      (.ok { response := text, client_id := effectiveCid freshId req },
       { table := (dictSet (dictSet
           (dictSet s.table (effectiveCid freshId req)
             { agent := s.nextAgent, messages := [], last_activity := now })
           (effectiveCid freshId req)
           { agent := s.nextAgent, messages := [], last_activity := now })
           (effectiveCid freshId req)
           { agent := s.nextAgent, messages := ms, last_activity := now })
         nextAgent := s.nextAgent + 1 }) := by
  unfold chat
  rw [getOrCreate_unknown now freshId req s h]
  have hget := dictGet_set_self s.table (effectiveCid freshId req)
    { agent := s.nextAgent, messages := [], last_activity := now }
  simp only [hget]
  rw [update_activity_known now _ _ _ hget]

theorem reset_chat_known (now : Int) (cid : String) (s : ServerState) (e : Entry)
    (h : dictGet s.table cid = some e) :
    reset_chat now cid s =
      (.ok "Chatbot context has been reset for the specified client.",
       update_activity now cid { s with table := dictSet s.table cid { e with messages := [] } }) := by
  unfold reset_chat
  rw [dictContains_eq_isSome, h]
  simp

theorem reset_chat_unknown (now : Int) (cid : String) (s : ServerState)
    (h : dictGet s.table cid = none) :
    reset_chat now cid s = (.error (.notFound "Client ID not found"), s) := by
  unfold reset_chat
  rw [dictContains_eq_isSome, h]
  simp

theorem remove_instance_known (cid : String) (s : ServerState)
    (hc : dictContains s.table cid = true) :
    remove_instance cid s =
      (.ok "Chatbot instance removed successfully", { s with table := dictDel s.table cid }) := by
  unfold remove_instance
  rw [hc]
  simp

theorem remove_instance_unknown (cid : String) (s : ServerState)
    (h : dictGet s.table cid = none) :
    remove_instance cid s = (.error (.notFound "Client ID not found"), s) := by
  unfold remove_instance
  rw [dictContains_eq_isSome, h]
  simp

theorem get_chat_history_known (now : Int) (cid : String) (s : ServerState) (e : Entry)
    (h : dictGet s.table cid = some e) :
    get_chat_history now cid s = (.ok e.messages, update_activity now cid s) := by
  unfold get_chat_history
  rw [dictContains_eq_isSome, h]
  simp

theorem get_chat_history_unknown (now : Int) (cid : String) (s : ServerState)
    (h : dictGet s.table cid = none) :
    get_chat_history now cid s = (.error (.notFound "Client ID not found"), s) := by
  unfold get_chat_history
  rw [dictContains_eq_isSome, h]
  simp

theorem sweepOnce_get (now : Int) (t : Table) (cid : String) (e : Entry)
    (hnd : (t.map Prod.fst).Nodup) (hget : dictGet t cid = some e) :
    dictGet (sweepOnce now t) cid =
      (if now - e.last_activity > INACTIVITY_THRESHOLD then none else some e) := by
  unfold sweepOnce
  by_cases hidle : now - e.last_activity > INACTIVITY_THRESHOLD
  · rw [if_pos hidle]
    apply dictGet_foldl_del_mem
    apply List.mem_map.mpr
    refine ⟨(cid, e), List.mem_filter.mpr ⟨dictGet_some_mem t cid e hget, ?_⟩, rfl⟩
    simpa using hidle
  · rw [if_neg hidle]
    rw [dictGet_foldl_del_not_mem _ t cid ?_]
    · exact hget
    · intro hmem
      rcases List.mem_map.mp hmem with ⟨p, hpf, hp1⟩
      rcases List.mem_filter.mp hpf with ⟨hpt, hstale⟩
      have hpe : p = (cid, e) := dictGet_unique t cid e hnd hget p hpt hp1
      rw [hpe] at hstale
      simp only [decide_eq_true_eq] at hstale
      exact hidle hstale

/-! ### Claim theorems -/

/-- C1 (counterexample): the claim "on agent failure the session entry's
`last_activity` is not mutated" is false on the code.  Concretely: a
session "c" with `last_activity = 0` receives a chat request at time 100
whose agent call raises; after the failed request the stored entry is
`last_activity = 100`, not the original 0, because the handler calls
`update_activity` before awaiting `run_agent`. -/
theorem chat_failure_touches_last_activity_cx :
    dictGet (chat 100 "f" (.fail "boom") { user_input := "hi", client_id := some "c" }
        { table := [("c", { agent := 0, messages := [], last_activity := 0 })]
          nextAgent := 1 }).2.table "c" =
      some { agent := 0, messages := [], last_activity := 100 } ∧
    ({ agent := 0, messages := [], last_activity := 100 } : Entry) ≠
      { agent := 0, messages := [], last_activity := 0 } := by
  decide

/-- C1 (amended): if the underlying agent call raises, the session entry
is left in place — same agent handle, same message history, not evicted —
but its `last_activity` has already been updated to the request time,
because the activity touch happens before the agent call rather than only
after a successful reply; the failure propagates as a server error. -/
theorem chat_failure_preserves_entry_but_touches_activity
    (now : Int) (freshId d : String) (req : ChatRequest) (s : ServerState) (e : Entry)
    (h : dictGet s.table (effectiveCid freshId req) = some e) :
    (chat now freshId (.fail d) req s).1 = .error (.serverError d) ∧
    dictGet (chat now freshId (.fail d) req s).2.table (effectiveCid freshId req) =
      some { e with last_activity := now } := by
  rw [chat_known_fail now freshId d req s e h]
  exact ⟨rfl, dictGet_set_self _ _ _⟩

/-- Witness for the amended C1 theorem at a concrete input. -/
theorem chat_failure_preserves_entry_but_touches_activity_witness :
    (chat 100 "f" (.fail "boom") { user_input := "hi", client_id := some "c" }
        { table := [("c", { agent := 0, messages := ["m1"], last_activity := 0 })]
          nextAgent := 1 }).1 = .error (.serverError "boom") ∧
    dictGet (chat 100 "f" (.fail "boom") { user_input := "hi", client_id := some "c" }
        { table := [("c", { agent := 0, messages := ["m1"], last_activity := 0 })]
          nextAgent := 1 }).2.table
        (effectiveCid "f" { user_input := "hi", client_id := some "c" }) =
      some { agent := 0, messages := ["m1"], last_activity := 100 } :=
  chat_failure_preserves_entry_but_touches_activity 100 "f" "boom"
    { user_input := "hi", client_id := some "c" }
    { table := [("c", { agent := 0, messages := ["m1"], last_activity := 0 })], nextAgent := 1 }
    { agent := 0, messages := ["m1"], last_activity := 0 } (by decide)

/-- C2: in one reaper sweep, every entry whose idle duration
`now - last_activity` strictly exceeds the 3600-second threshold is
absent from the table immediately after the sweep, and every entry with
idle duration at most the threshold remains present, its agent handle,
history and `last_activity` all unchanged. -/
theorem sweep_eviction_correct (now : Int) (t : Table) (cid : String) (e : Entry)
    (hnd : (t.map Prod.fst).Nodup) (hget : dictGet t cid = some e) :
    (now - e.last_activity > INACTIVITY_THRESHOLD → dictGet (sweepOnce now t) cid = none) ∧
    (now - e.last_activity ≤ INACTIVITY_THRESHOLD → dictGet (sweepOnce now t) cid = some e) := by
  constructor <;> intro h
  · rw [sweepOnce_get now t cid e hnd hget, if_pos h]
  · rw [sweepOnce_get now t cid e hnd hget, if_neg (not_lt.mpr h)]

/-- Witness for C2: at sweep time 4000, the entry idle since time 0
(idle 4000 > 3600) is evicted, and the entry idle since time 5000
(idle -1000 ≤ 3600) survives untouched. -/
theorem sweep_eviction_correct_witness :
    dictGet (sweepOnce 4000 [("a", { agent := 0, messages := [], last_activity := 0 }),
        ("b", { agent := 1, messages := ["m"], last_activity := 5000 })]) "a" = none ∧
    dictGet (sweepOnce 4000 [("a", { agent := 0, messages := [], last_activity := 0 }),
        ("b", { agent := 1, messages := ["m"], last_activity := 5000 })]) "b" =
      some { agent := 1, messages := ["m"], last_activity := 5000 } :=
  ⟨(sweep_eviction_correct 4000 _ "a" { agent := 0, messages := [], last_activity := 0 }
      (by decide) (by decide)).1 (by decide),
   (sweep_eviction_correct 4000 _ "b" { agent := 1, messages := ["m"], last_activity := 5000 }
      (by decide) (by decide)).2 (by decide)⟩

/-- C3: an `Exception` raised during a sweep is caught by the loop's
handler, which sleeps the same 300-second interval and continues with the
table as it was; a fault-free iteration likewise continues after 300
seconds; the only way an iteration terminates the task is an explicit
`CancelledError` (which `except Exception` does not catch); and the
`lifespan` shutdown path swallows that expected `CancelledError` instead
of re-raising it. -/
theorem reaper_survives_sweep_faults (now : Int) (t : Table) :
    (∀ d, reaperIteration now t (some (.exception d)) = .next t 300) ∧
    reaperIteration now t none = .next (sweepOnce now t) 300 ∧
    (∀ fault, reaperIteration now t fault = .cancelled ↔ fault = some .cancelledError) ∧
    lifespanShutdown (some .cancelledError) = none := by
  refine ⟨fun d => rfl, rfl, fun fault => ?_, rfl⟩
  cases fault with
  | none => simp [reaperIteration]
  | some exc => cases exc <;> simp [reaperIteration]

/-- Witness for C3 at concrete inputs. -/
theorem reaper_survives_sweep_faults_witness :
    reaperIteration 0 [] (some (.exception "db down")) = .next [] 300 ∧
    reaperIteration 0 [] (some .cancelledError) = .cancelled :=
  ⟨(reaper_survives_sweep_faults 0 []).1 "db down",
   ((reaper_survives_sweep_faults 0 []).2.2.1 (some .cancelledError)).mpr rfl⟩

/-- C4: a chat request whose effective client identifier is
never-before-seen creates exactly one new session entry (table grows by
one, and the identifier is now bound to the freshly allocated agent
handle); a subsequent chat request with the same identifier reuses the
same agent handle and creates no entry (table size unchanged). -/
theorem chat_creates_once_then_reuses
    (now now' : Int) (freshId freshId' text text' : String) (ms ms' : List Msg)
    (req req' : ChatRequest) (s : ServerState)
    (hfresh : dictGet s.table (effectiveCid freshId req) = none)
    (hsame : effectiveCid freshId' req' = effectiveCid freshId req) :
    (chat now freshId (.ok text ms) req s).2.table.length = s.table.length + 1 ∧
    dictGet (chat now freshId (.ok text ms) req s).2.table (effectiveCid freshId req) =
      some { agent := s.nextAgent, messages := ms, last_activity := now } ∧
    (chat now' freshId' (.ok text' ms') req'
        (chat now freshId (.ok text ms) req s).2).2.table.length =
      (chat now freshId (.ok text ms) req s).2.table.length ∧
    dictGet (chat now' freshId' (.ok text' ms') req'
        (chat now freshId (.ok text ms) req s).2).2.table (effectiveCid freshId req) =
      some { agent := s.nextAgent, messages := ms', last_activity := now' } := by
  rw [chat_fresh_ok now freshId text ms req s hfresh]
  set cid := effectiveCid freshId req with hcid
  have hc0 : dictContains s.table cid = false := by
    rw [dictContains_eq_isSome, hfresh]; rfl
  have hs1 := dictGet_set_self s.table cid
    { agent := s.nextAgent, messages := [], last_activity := now }
  have hc1 : dictContains (dictSet s.table cid
      { agent := s.nextAgent, messages := [], last_activity := now }) cid = true := by
    rw [dictContains_eq_isSome, hs1]; rfl
  have hs2 := dictGet_set_self (dictSet s.table cid
    { agent := s.nextAgent, messages := [], last_activity := now }) cid
    { agent := s.nextAgent, messages := [], last_activity := now }
  have hc2 : dictContains (dictSet (dictSet s.table cid
      { agent := s.nextAgent, messages := [], last_activity := now }) cid
      { agent := s.nextAgent, messages := [], last_activity := now }) cid = true := by
    rw [dictContains_eq_isSome, hs2]; rfl
  have hs3 := dictGet_set_self (dictSet (dictSet s.table cid
    { agent := s.nextAgent, messages := [], last_activity := now }) cid
    { agent := s.nextAgent, messages := [], last_activity := now }) cid
    { agent := s.nextAgent, messages := ms, last_activity := now }
  have hc3 : dictContains (dictSet (dictSet (dictSet s.table cid
      { agent := s.nextAgent, messages := [], last_activity := now }) cid
      { agent := s.nextAgent, messages := [], last_activity := now }) cid
      { agent := s.nextAgent, messages := ms, last_activity := now }) cid = true := by
    rw [dictContains_eq_isSome, hs3]; rfl
  have hlen1 : (dictSet (dictSet (dictSet s.table cid
      { agent := s.nextAgent, messages := [], last_activity := now }) cid
      { agent := s.nextAgent, messages := [], last_activity := now }) cid
      { agent := s.nextAgent, messages := ms, last_activity := now }).length =
      s.table.length + 1 := by
    rw [length_dictSet_contains _ _ _ hc2, length_dictSet_contains _ _ _ hc1,
      length_dictSet_fresh _ _ _ hc0]
  refine ⟨hlen1, hs3, ?_⟩
  have hfollow := chat_known_ok now' freshId' text' ms' req'
    { table := (dictSet (dictSet
        (dictSet s.table cid { agent := s.nextAgent, messages := [], last_activity := now })
        cid { agent := s.nextAgent, messages := [], last_activity := now })
        cid { agent := s.nextAgent, messages := ms, last_activity := now })
      nextAgent := s.nextAgent + 1 }
    { agent := s.nextAgent, messages := ms, last_activity := now } (by rw [hsame]; exact hs3)
  rw [hfollow, hsame]
  constructor
  · have hc4 : dictContains (dictSet (dictSet (dictSet (dictSet s.table cid
        { agent := s.nextAgent, messages := [], last_activity := now }) cid
        { agent := s.nextAgent, messages := [], last_activity := now }) cid
        { agent := s.nextAgent, messages := ms, last_activity := now }) cid
        { agent := s.nextAgent, messages := ms, last_activity := now' }) cid = true := by
      rw [dictContains_eq_isSome, dictGet_set_self]; rfl
    simp only [length_dictSet_contains _ _ _ hc4, length_dictSet_contains _ _ _ hc3]
  · exact dictGet_set_self _ _ _

/-- Witness for C4: a request under fresh identifier "u1" against the
empty table, followed by a request reusing "u1". -/
theorem chat_creates_once_then_reuses_witness :
    (chat 10 "u1" (.ok "hello" ["m1"]) { user_input := "hi", client_id := none }
      { table := [], nextAgent := 0 }).2.table.length = 0 + 1 ∧
    dictGet (chat 10 "u1" (.ok "hello" ["m1"]) { user_input := "hi", client_id := none }
      { table := [], nextAgent := 0 }).2.table
      (effectiveCid "u1" { user_input := "hi", client_id := none }) =
      some { agent := 0, messages := ["m1"], last_activity := 10 } ∧
    (chat 20 "u2" (.ok "again" ["m1", "m2"]) { user_input := "more", client_id := some "u1" }
      (chat 10 "u1" (.ok "hello" ["m1"]) { user_input := "hi", client_id := none }
        { table := [], nextAgent := 0 }).2).2.table.length =
      (chat 10 "u1" (.ok "hello" ["m1"]) { user_input := "hi", client_id := none }
        { table := [], nextAgent := 0 }).2.table.length ∧
    dictGet (chat 20 "u2" (.ok "again" ["m1", "m2"]) { user_input := "more", client_id := some "u1" }
      (chat 10 "u1" (.ok "hello" ["m1"]) { user_input := "hi", client_id := none }
        { table := [], nextAgent := 0 }).2).2.table
      (effectiveCid "u1" { user_input := "hi", client_id := none }) =
      some { agent := 0, messages := ["m1", "m2"], last_activity := 20 } :=
  chat_creates_once_then_reuses 10 20 "u1" "u2" "hello" "again" ["m1"] ["m1", "m2"]
    { user_input := "hi", client_id := none } { user_input := "more", client_id := some "u1" }
    { table := [], nextAgent := 0 } (by decide) (by decide)

theorem effectiveCid_falsy (freshId : String) (req : ChatRequest)
    (h : pyFalsy req.client_id = true) : effectiveCid freshId req = freshId := by
  simp [effectiveCid, h]

theorem effectiveCid_some (freshId u c : String) (hc : c ≠ "") :
    effectiveCid freshId { user_input := u, client_id := some c } = c := by
  have hb : (c == "") = false := beq_eq_false_iff_ne.mpr hc
  simp [effectiveCid, pyFalsy, hb]

theorem isClientNotFound_chat (now : Int) (freshId : String) (outcome : AgentOutcome)
    (req : ChatRequest) (s : ServerState) :
    isClientNotFound (chat now freshId outcome req s).1 = false := by
  unfold chat
  cases hg : dictGet (getOrCreate now freshId req s).2.table (getOrCreate now freshId req s).1 with
  | none => simp [hg, isClientNotFound]
  | some e => cases outcome <;> simp [hg, isClientNotFound]

/-- C5: a chat request is never rejected with a not-found error, whatever
the supplied identifier and agent outcome; with an absent (or empty,
hence falsy) `client_id`, the freshly generated identifier is used: a new
entry bound to a newly allocated agent is created under it and it is
returned in the reply (and it has 36 characters whenever the generated
token does); with an unknown but supplied identifier, a new entry is
likewise created under that identifier and returned. -/
theorem chat_absent_or_unknown_never_not_found
    (now : Int) (freshId text : String) (ms : List Msg) (req : ChatRequest) (s : ServerState) :
    (∀ outcome, isClientNotFound (chat now freshId outcome req s).1 = false) ∧
    (pyFalsy req.client_id = true → dictGet s.table freshId = none →
      (chat now freshId (.ok text ms) req s).1 =
        .ok { response := text, client_id := freshId } ∧
      dictGet (chat now freshId (.ok text ms) req s).2.table freshId =
        some { agent := s.nextAgent, messages := ms, last_activity := now } ∧
      (freshId.length = 36 → ∀ rep : ChatReply,
        (chat now freshId (.ok text ms) req s).1 = .ok rep → rep.client_id.length = 36)) ∧
    (∀ c u, req = { user_input := u, client_id := some c } → c ≠ "" →
      dictGet s.table c = none →
      (chat now freshId (.ok text ms) req s).1 = .ok { response := text, client_id := c } ∧
      dictGet (chat now freshId (.ok text ms) req s).2.table c =
        some { agent := s.nextAgent, messages := ms, last_activity := now }) := by
  refine ⟨fun outcome => isClientNotFound_chat now freshId outcome req s, ?_, ?_⟩
  · intro hfal hnone
    have hcid : effectiveCid freshId req = freshId := effectiveCid_falsy freshId req hfal
    have hfresh : dictGet s.table (effectiveCid freshId req) = none := by rw [hcid]; exact hnone
    rw [chat_fresh_ok now freshId text ms req s hfresh, hcid]
    refine ⟨rfl, dictGet_set_self _ _ _, ?_⟩
    intro h36 rep hrep
    have : rep = { response := text, client_id := freshId } := by
      simpa using hrep.symm
    rw [this]
    exact h36
  · intro c u hreq hc hnone
    subst hreq
    have hcid : effectiveCid freshId { user_input := u, client_id := some c } = c :=
      effectiveCid_some freshId u c hc
    have hfresh : dictGet s.table
        (effectiveCid freshId { user_input := u, client_id := some c }) = none := by
      rw [hcid]; exact hnone
    rw [chat_fresh_ok now freshId text ms _ s hfresh, hcid]
    exact ⟨rfl, dictGet_set_self _ _ _⟩

/-- Witness for C5: a no-identifier request against the empty table, and
a request with the unknown identifier "zz". -/
theorem chat_absent_or_unknown_never_not_found_witness :
    isClientNotFound (chat 5 "u1" (.fail "x") { user_input := "q", client_id := none }
      { table := [], nextAgent := 0 }).1 = false ∧
    (chat 5 "u1" (.ok "resp" ["m"]) { user_input := "q", client_id := none }
      { table := [], nextAgent := 0 }).1 = .ok { response := "resp", client_id := "u1" } ∧
    (chat 5 "u1" (.ok "resp" ["m"]) { user_input := "q", client_id := some "zz" }
      { table := [], nextAgent := 0 }).1 = .ok { response := "resp", client_id := "zz" } :=
  ⟨(chat_absent_or_unknown_never_not_found 5 "u1" "resp" ["m"]
      { user_input := "q", client_id := none } { table := [], nextAgent := 0 }).1 (.fail "x"),
   ((chat_absent_or_unknown_never_not_found 5 "u1" "resp" ["m"]
      { user_input := "q", client_id := none } { table := [], nextAgent := 0 }).2.1
      (by decide) (by decide)).1,
   ((chat_absent_or_unknown_never_not_found 5 "u1" "resp" ["m"]
      { user_input := "q", client_id := some "zz" } { table := [], nextAgent := 0 }).2.2
      "zz" "q" rfl (by decide) (by decide)).1⟩

/-- C6: removing an existing client deletes its entry outright and
reports success; afterwards the identifier is absent, so a subsequent
reset, get-history or remove-instance on it fails with the 404
"Client ID not found" error, while a subsequent chat request supplying
that identifier re-creates a brand-new session: its create step binds the
identifier to a newly allocated agent whose history is empty; removing an
unknown identifier fails with the same 404 error. -/
theorem remove_instance_semantics
    (now now' : Int) (cid f u : String) (s : ServerState) (e : Entry)
    (hget : dictGet s.table cid = some e) :
    (remove_instance cid s).1 = .ok "Chatbot instance removed successfully" ∧
    dictGet (remove_instance cid s).2.table cid = none ∧
    (reset_chat now cid (remove_instance cid s).2).1 =
      .error (.notFound "Client ID not found") ∧
    (get_chat_history now cid (remove_instance cid s).2).1 =
      .error (.notFound "Client ID not found") ∧
    (remove_instance cid (remove_instance cid s).2).1 =
      .error (.notFound "Client ID not found") ∧
    (cid ≠ "" →
      dictGet (getOrCreate now' f { user_input := u, client_id := some cid }
          (remove_instance cid s).2).2.table cid =
        some { agent := (remove_instance cid s).2.nextAgent
               messages := []
               last_activity := now' }) ∧
    (∀ cid', dictGet s.table cid' = none →
      (remove_instance cid' s).1 = .error (.notFound "Client ID not found")) := by
  have hc : dictContains s.table cid = true := by
    rw [dictContains_eq_isSome, hget]; rfl
  rw [remove_instance_known cid s hc]
  have hdel : dictGet (dictDel s.table cid) cid = none := dictGet_del_self s.table cid
  refine ⟨rfl, hdel, ?_, ?_, ?_, ?_, ?_⟩
  · rw [reset_chat_unknown now cid _ hdel]
  · rw [get_chat_history_unknown now cid _ hdel]
  · rw [remove_instance_unknown cid _ hdel]
  · intro hcid
    have hcid' : effectiveCid f { user_input := u, client_id := some cid } = cid :=
      effectiveCid_some f u cid hcid
    have hfresh : dictGet (dictDel s.table cid)
        (effectiveCid f { user_input := u, client_id := some cid }) = none := by
      rw [hcid']; exact hdel
    rw [getOrCreate_unknown now' f _ _ hfresh, hcid']
    exact dictGet_set_self _ _ _
  · intro cid' hnone
    rw [remove_instance_unknown cid' _ hnone]

/-- Witness for C6 at a one-entry table. -/
theorem remove_instance_semantics_witness :
    (remove_instance "c"
        { table := [("c", { agent := 3, messages := ["m"], last_activity := 7 })]
          nextAgent := 4 }).1 = .ok "Chatbot instance removed successfully" ∧
    dictGet (remove_instance "c"
        { table := [("c", { agent := 3, messages := ["m"], last_activity := 7 })]
          nextAgent := 4 }).2.table "c" = none ∧
    (reset_chat 9 "c" (remove_instance "c"
        { table := [("c", { agent := 3, messages := ["m"], last_activity := 7 })]
          nextAgent := 4 }).2).1 = .error (.notFound "Client ID not found") ∧
    dictGet (getOrCreate 11 "f" { user_input := "q", client_id := some "c" }
        (remove_instance "c"
          { table := [("c", { agent := 3, messages := ["m"], last_activity := 7 })]
            nextAgent := 4 }).2).2.table "c" =
      some { agent := 4, messages := [], last_activity := 11 } := by
  have h := remove_instance_semantics 9 11 "c" "f" "q"
    { table := [("c", { agent := 3, messages := ["m"], last_activity := 7 })], nextAgent := 4 }
    { agent := 3, messages := ["m"], last_activity := 7 } (by decide)
  exact ⟨h.1, h.2.1, h.2.2.1, h.2.2.2.2.2.1 (by decide)⟩

/-- C7: resetting a known client succeeds: the entry stays in the table
(same agent handle, table size unchanged), its message history becomes
empty and its `last_activity` is touched to the request time; a
subsequent get-history on the reset session returns the empty history;
resetting an unknown client fails with the 404 "Client ID not found"
error. -/
theorem reset_chat_semantics
    (now now' : Int) (cid : String) (s : ServerState) (e : Entry)
    (hget : dictGet s.table cid = some e) :
    (reset_chat now cid s).1 =
      .ok "Chatbot context has been reset for the specified client." ∧
    dictGet (reset_chat now cid s).2.table cid =
      some { agent := e.agent, messages := [], last_activity := now } ∧
    (reset_chat now cid s).2.table.length = s.table.length ∧
    (get_chat_history now' cid (reset_chat now cid s).2).1 = .ok ([] : List Msg) ∧
    (∀ cid', dictGet s.table cid' = none →
      (reset_chat now cid' s).1 = .error (.notFound "Client ID not found")) := by
  rw [reset_chat_known now cid s e hget]
  have hs1 : dictGet (dictSet s.table cid { e with messages := [] }) cid =
      some { e with messages := [] } := dictGet_set_self _ _ _
  rw [update_activity_known now cid _ _ hs1]
  have hs2 : dictGet (dictSet (dictSet s.table cid { e with messages := [] }) cid
      { agent := e.agent, messages := [], last_activity := now }) cid =
      some { agent := e.agent, messages := [], last_activity := now } := dictGet_set_self _ _ _
  have hc0 : dictContains s.table cid = true := by
    rw [dictContains_eq_isSome, hget]; rfl
  have hc1 : dictContains (dictSet s.table cid { e with messages := [] }) cid = true := by
    rw [dictContains_eq_isSome, hs1]; rfl
  refine ⟨rfl, hs2, ?_, ?_, ?_⟩
  · rw [length_dictSet_contains _ _ _ hc1, length_dictSet_contains _ _ _ hc0]
  · rw [get_chat_history_known now' cid _ _ hs2]
  · intro cid' hnone
    rw [reset_chat_unknown now cid' s hnone]

/-- Witness for C7 at a one-entry table. -/
theorem reset_chat_semantics_witness :
    (reset_chat 50 "c"
        { table := [("c", { agent := 2, messages := ["a", "b"], last_activity := 7 })]
          nextAgent := 3 }).1 =
      .ok "Chatbot context has been reset for the specified client." ∧
    dictGet (reset_chat 50 "c"
        { table := [("c", { agent := 2, messages := ["a", "b"], last_activity := 7 })]
          nextAgent := 3 }).2.table "c" =
      some { agent := 2, messages := [], last_activity := 50 } ∧
    (get_chat_history 60 "c" (reset_chat 50 "c"
        { table := [("c", { agent := 2, messages := ["a", "b"], last_activity := 7 })]
          nextAgent := 3 }).2).1 = .ok ([] : List Msg) := by
  have h := reset_chat_semantics 50 60 "c"
    { table := [("c", { agent := 2, messages := ["a", "b"], last_activity := 7 })], nextAgent := 3 }
    { agent := 2, messages := ["a", "b"], last_activity := 7 } (by decide)
  exact ⟨h.1, h.2.1, h.2.2.2.1⟩

/-- C8: get-history on a known client returns the entry's raw message
history and touches the entry's `last_activity` to the request time
(leaving agent handle and history unchanged); on an unknown client it
fails with the 404 "Client ID not found" error and leaves the state
untouched. -/
theorem get_chat_history_semantics
    (now : Int) (cid : String) (s : ServerState) (e : Entry)
    (hget : dictGet s.table cid = some e) :
    (get_chat_history now cid s).1 = .ok e.messages ∧
    dictGet (get_chat_history now cid s).2.table cid = some { e with last_activity := now } ∧
    (∀ cid', dictGet s.table cid' = none →
      get_chat_history now cid' s = (.error (.notFound "Client ID not found"), s)) := by
  rw [get_chat_history_known now cid s e hget, update_activity_known now cid s e hget]
  exact ⟨rfl, dictGet_set_self _ _ _,
    fun cid' hnone => get_chat_history_unknown now cid' s hnone⟩

/-- Witness for C8 at a one-entry table. -/
theorem get_chat_history_semantics_witness :
    (get_chat_history 90 "c"
        { table := [("c", { agent := 1, messages := ["x", "y"], last_activity := 2 })]
          nextAgent := 2 }).1 = .ok ["x", "y"] ∧
    dictGet (get_chat_history 90 "c"
        { table := [("c", { agent := 1, messages := ["x", "y"], last_activity := 2 })]
          nextAgent := 2 }).2.table "c" =
      some { agent := 1, messages := ["x", "y"], last_activity := 90 } := by
  have h := get_chat_history_semantics 90 "c"
    { table := [("c", { agent := 1, messages := ["x", "y"], last_activity := 2 })], nextAgent := 2 }
    { agent := 1, messages := ["x", "y"], last_activity := 2 } (by decide)
  exact ⟨h.1, h.2.1⟩

theorem find?_fst_map {β γ : Type} (t : List (String × β)) (k : String) (g : String × β → γ) :
    List.find? (fun p => p.1 == k) (t.map (fun p => (p.1, g p))) =
      (t.find? (fun p => p.1 == k)).map (fun p => (p.1, g p)) := by
  induction t with
  | nil => rfl
  | cons q t ih =>
    cases hqk : (q.1 == k) with
    | true =>
        rw [List.map_cons,
          @List.find?_cons_of_pos _ (fun p => p.1 == k) (q.1, g q) _ hqk,
          @List.find?_cons_of_pos _ (fun p => p.1 == k) q t hqk]
        rfl
    | false =>
        rw [List.map_cons,
          @List.find?_cons_of_neg _ (fun p => p.1 == k) (q.1, g q) _ (by simp [hqk]),
          @List.find?_cons_of_neg _ (fun p => p.1 == k) q t (by simp [hqk])]
        exact ih

/-- C9: `GET /instances` is a pure read: the state it leaves behind is
the state it was given (no entry's `last_activity` is touched, no entry
added or removed), `active_instances` is the number of live entries, and
the row reported for a live entry carries its idle duration
`now - last_activity`, its message count `len(messages)`, and its
time-to-eviction `max 0 (3600 - idle)`. -/
theorem get_chatbot_instances_pure_report (now : Int) (s : ServerState) :
    (get_chatbot_instances now s).2 = s ∧
    (get_chatbot_instances now s).1.active_instances = s.table.length ∧
    ∀ cid e, dictGet s.table cid = some e →
      (List.find? (fun p => p.1 == cid)
          (get_chatbot_instances now s).1.instances).map Prod.snd =
        some { last_activity := e.last_activity
               idle_time_seconds := now - e.last_activity
               message_count := e.messages.length
               will_expire_in := max 0 (INACTIVITY_THRESHOLD - (now - e.last_activity)) } := by
  refine ⟨rfl, rfl, ?_⟩
  intro cid e hget
  have hmap := find?_fst_map s.table cid (fun p =>
    ({ last_activity := p.2.last_activity
       idle_time_seconds := now - p.2.last_activity
       message_count := p.2.messages.length
       will_expire_in := max 0 (INACTIVITY_THRESHOLD - (now - p.2.last_activity)) } :
      InstanceInfo))
  unfold get_chatbot_instances
  rw [hmap]
  unfold dictGet at hget
  cases hf : s.table.find? (fun p => p.1 == cid) with
  | none => rw [hf] at hget; simp at hget
  | some q =>
      rw [hf] at hget
      have hq2 : q.2 = e := by simpa using hget
      simp [hq2]

/-- Witness for C9 at a two-entry table. -/
theorem get_chatbot_instances_pure_report_witness :
    (get_chatbot_instances 100
        { table := [("a", { agent := 0, messages := ["m"], last_activity := 40 })]
          nextAgent := 1 }).2 =
      { table := [("a", { agent := 0, messages := ["m"], last_activity := 40 })]
        nextAgent := 1 } ∧
    (List.find? (fun p => p.1 == "a")
        (get_chatbot_instances 100
          { table := [("a", { agent := 0, messages := ["m"], last_activity := 40 })]
            nextAgent := 1 }).1.instances).map Prod.snd =
      some { last_activity := 40, idle_time_seconds := 60, message_count := 1
             will_expire_in := 3540 } := by
  have h := get_chatbot_instances_pure_report 100
    { table := [("a", { agent := 0, messages := ["m"], last_activity := 40 })], nextAgent := 1 }
  refine ⟨h.1, ?_⟩
  have h2 := h.2.2 "a" { agent := 0, messages := ["m"], last_activity := 40 } (by decide)
  rw [h2]
  decide

/-- C10: after every successful chat request, the identifier returned in
the reply is a key of the session table, bound to an entry (hence to an
agent handle), whether the identifier was supplied or freshly generated;
consequently an immediately following reset, get-history, or
remove-instance with that identifier on the resulting state does not fail
with the 404 "Client ID not found" error. -/
theorem chat_success_registers_client
    (now : Int) (freshId : String) (outcome : AgentOutcome) (req : ChatRequest)
    (s : ServerState) (reply : ChatReply)
    (hok : (chat now freshId outcome req s).1 = .ok reply) :
    (∃ e, dictGet (chat now freshId outcome req s).2.table reply.client_id = some e) ∧
    ∀ now', isClientNotFound (reset_chat now' reply.client_id
        (chat now freshId outcome req s).2).1 = false ∧
      isClientNotFound (get_chat_history now' reply.client_id
        (chat now freshId outcome req s).2).1 = false ∧
      isClientNotFound (remove_instance reply.client_id
        (chat now freshId outcome req s).2).1 = false := by
  have hpost : ∀ (s' : ServerState) (v : Entry),
      dictGet s'.table reply.client_id = some v →
      ∀ now', isClientNotFound (reset_chat now' reply.client_id s').1 = false ∧
        isClientNotFound (get_chat_history now' reply.client_id s').1 = false ∧
        isClientNotFound (remove_instance reply.client_id s').1 = false := by
    intro s' v hv now'
    have hc : dictContains s'.table reply.client_id = true := by
      rw [dictContains_eq_isSome, hv]; rfl
    rw [reset_chat_known now' _ s' v hv]
    rw [get_chat_history_known now' _ s' v hv]
    rw [remove_instance_known _ s' hc]
    exact ⟨rfl, rfl, rfl⟩
  cases outcome with
  | fail d =>
      exfalso
      cases hg : dictGet s.table (effectiveCid freshId req) with
      | some e => rw [chat_known_fail now freshId d req s e hg] at hok; simp at hok
      | none => rw [chat_fresh_fail now freshId d req s hg] at hok; simp at hok
  | ok text ms =>
      cases hg : dictGet s.table (effectiveCid freshId req) with
      | some e =>
          rw [chat_known_ok now freshId text ms req s e hg] at hok ⊢
          have hrep : reply = { response := text, client_id := effectiveCid freshId req } := by
            simpa using hok.symm
          subst hrep
          exact ⟨⟨_, dictGet_set_self _ _ _⟩,
            fun now' => hpost _ _ (dictGet_set_self _ _ _) now'⟩
      | none =>
          rw [chat_fresh_ok now freshId text ms req s hg] at hok ⊢
          have hrep : reply = { response := text, client_id := effectiveCid freshId req } := by
            simpa using hok.symm
          subst hrep
          exact ⟨⟨_, dictGet_set_self _ _ _⟩,
            fun now' => hpost _ _ (dictGet_set_self _ _ _) now'⟩

/-- Witness for C10: a successful no-identifier chat against the empty
table registers the generated identifier. -/
theorem chat_success_registers_client_witness :
    (∃ e, dictGet (chat 5 "u1" (.ok "r" ["m"]) { user_input := "q", client_id := none }
      { table := [], nextAgent := 0 }).2.table "u1" = some e) ∧
    isClientNotFound (reset_chat 6 "u1"
      (chat 5 "u1" (.ok "r" ["m"]) { user_input := "q", client_id := none }
        { table := [], nextAgent := 0 }).2).1 = false := by
  have h := chat_success_registers_client 5 "u1" (.ok "r" ["m"])
    { user_input := "q", client_id := none } { table := [], nextAgent := 0 }
    { response := "r", client_id := "u1" } (by rfl)
  exact ⟨h.1, (h.2 6).1⟩
